import Mathlib

/-!
Verification of the Crackers_website repository (Django e-commerce storefront).

This file shallowly embeds the parts of the code that the claims are about:
  * the WhatsApp client (`src/whatsapp_notifications/whatsapp_client.py`),
  * the inventory data model (`src/inventory/models.py`),
  * the checkout, stock-update, order-status and quick-order operations
    (`src/inventory/views.py`) and the API error helper
    (`src/inventory/utils.py`).

Modelling conventions: Python floats/Decimals are embedded as rationals (ℚ),
database rows as lists of structures, Python dicts submitted as JSON as
association lists (with key-distinctness hypotheses where dict semantics
matter), and Django `Model.objects.get(id=...)` as first-match lookup (with
primary-key distinctness hypotheses where it matters).  Human-readable
message strings are kept only where a claim refers to them (the WhatsApp
client); API error responses keep the machine-readable fields
(`error_type`, `error_code`, `shortfall`).
-/

namespace Crackers

/-! ## WhatsApp client (`whatsapp_client.py`) -/

/-- Characters stripped by `_validate_phone_number` before validation:
`phone_number.replace(" ", "").replace("-", "").replace("(", "").replace(")", "")`. -/
def isPhoneFormattingChar (c : Char) : Bool :=
  c = (' ') || c = ('-') || c = ('(') || c = (')')

/-- The cleaned phone number: all formatting characters removed. -/
def cleanPhone (s : String) : String :=
  ⟨s.data.filter (fun c => !isPhoneFormattingChar c)⟩

/-- Python `str.isdigit()` restricted to ASCII: non-empty and all digits.
(Python returns `False` on the empty string.) -/
def pyIsDigit (s : String) : Bool :=
  !s.data.isEmpty && s.data.all Char.isDigit

def msgPlusRequired : String := "Phone number must start with \x27+\x27 (e.g., +91XXXXXXXXXX)"

def msgDigitsRequired : String := "Phone number must contain only digits after \x27+\x27"

def msgTooShort : String := "Phone number must be at least 10 digits"

def msgEmptyBody : String := "Message body cannot be empty"

def plusChar : Char := '+'

/-- `WhatsAppClient._validate_phone_number`: returns `none` when valid,
`some errorMessage` when invalid.  Mirrors the three checks in order:
starts with `+`, only digits after `+`, `len(cleaned) >= 10` (the length
check counts the `+` character itself). -/
def validatePhoneNumber (phone : String) : Option String :=
  let cleaned := cleanPhone phone
  if cleaned.data.head? ≠ some plusChar then
    some msgPlusRequired
  else if !pyIsDigit ⟨cleaned.data.drop 1⟩ then
    some msgDigitsRequired
  else if cleaned.length < 10 then
    some msgTooShort
  else
    none

/-- Python `not message_body or len(message_body.strip()) == 0`:
the body is empty or consists only of whitespace. -/
def isBlankBody (s : String) : Bool :=
  s.data.all Char.isWhitespace

/-- The request payload built by `WhatsAppClient._build_payload`. -/
structure WAPayload where
  messaging_product : String
  recipient : String
  type : String
  preview_url : Bool
  body : String
deriving DecidableEq, Repr

def whatsappStr : String := "whatsapp"

def textStr : String := "text"

def buildPayload (recipient message_body : String) : WAPayload :=
  { messaging_product := whatsappStr
    recipient := recipient
    type := textStr
    preview_url := false
    body := message_body }

/-- Outcome of `WhatsAppClient.send_text` up to the network boundary:
either the input was rejected by validation (no network I/O, `success=False`),
or dry-run mode returned a success echo (no network I/O, `success=True`),
or production mode proceeded to an outbound HTTP POST of the payload. -/
inductive SendOutcome where
  | rejected (error : String) (mode : String)
  | dryRunOk (payload : WAPayload) (recipient : String)
  | productionSend (payload : WAPayload) (recipient : String)
deriving DecidableEq, Repr

def dryRunStr : String := "dry_run"

def productionStr : String := "production"

def modeStr (dry_run : Bool) : String :=
  if dry_run then dryRunStr else productionStr

/-- `WhatsAppClient.send_text(to, message_body)`, parameterised by the
client's `dry_run` flag.  Validation happens before the mode branch; in
dry-run mode the payload is echoed with `success=True`; in production mode
an HTTP request is attempted (its network result is outside this model). -/
def sendText (dry_run : Bool) (recipient message_body : String) : SendOutcome :=
  match validatePhoneNumber recipient with
  | some err => .rejected err (modeStr dry_run)
  | none =>
    if isBlankBody message_body then
      .rejected msgEmptyBody (modeStr dry_run)
    else if dry_run then
      .dryRunOk (buildPayload recipient message_body) recipient
    else
      .productionSend (buildPayload recipient message_body) recipient

/-- The `success` field of the returned dict, when it is determined without
network I/O (`none` for a production send, whose success depends on the API). -/
def outcomeSuccess (o : SendOutcome) : Option Bool :=
  match o with
  | .rejected _ _ => some false
  | .dryRunOk _ _ => some true
  | .productionSend _ _ => none

/-- The `mode` field of the returned dict (production sends always report
`"production"`, whatever the API answers). -/
def outcomeMode (o : SendOutcome) : String :=
  match o with
  | .rejected _ m => m
  | .dryRunOk _ _ => dryRunStr
  | .productionSend _ _ => productionStr

/-- Whether `send_text` performs an outbound network call. -/
def networkCalled (o : SendOutcome) : Bool :=
  match o with
  | .productionSend _ _ => true
  | _ => false

/-- `WHATSAPP_DRY_RUN` defaults to `True` in `WhatsAppClient.__init__`
(`getattr(settings, 'WHATSAPP_DRY_RUN', True)`). -/
def defaultDryRun : Bool := true

/-! ## Inventory data model (`inventory/models.py`) -/

/-- `inventory.models.Product` (the fields the claims are about; `category`
is embedded as the owning category's id). -/
structure Product where
  id : Nat
  name : String
  categoryId : Nat
  price : ℚ
  stock_quantity : ℤ
  is_active : Bool
deriving DecidableEq, Repr

/-- `inventory.models.Category` (name and display order; `Meta.ordering`
is `['order', 'name']`). -/
structure Category where
  id : Nat
  name : String
  order : ℤ
deriving DecidableEq, Repr

/-- `inventory.models.Order` (timestamps omitted; `user` is an optional
user id, nullable for guest checkout). -/
structure Order where
  id : Nat
  userId : Option Nat
  full_name : String
  email : String
  phone : String
  address : String
  total_amount : ℚ
  status : String
deriving DecidableEq, Repr

/-- `inventory.models.OrderItem`: belongs to one order, references one
product, captures quantity and the unit price submitted at purchase time. -/
structure OrderItem where
  orderId : Nat
  productId : Nat
  quantity : ℤ
  price : ℚ
deriving DecidableEq, Repr

/-- The fields of `accounts.models.CustomUser` touched by checkout's
profile update. -/
structure UserProfile where
  id : Nat
  first_name : String
  last_name : String
  phone_number : String
  address : String
deriving DecidableEq, Repr

/-- The relational store: all persisted rows, plus the next order primary
key to be allocated. -/
structure Store where
  categories : List Category
  products : List Product
  orders : List Order
  orderItems : List OrderItem
  users : List UserProfile
  nextOrderId : Nat
deriving DecidableEq, Repr

/-- `Order.STATUS_CHOICES` from `inventory/models.py`. -/
def STATUS_CHOICES : List String :=
  ["pending", "processing", "shipped", "delivered", "cancelled"]

def statusPending : String := "pending"

/-! ## Checkout request data (`inventory/views.py` `checkout`) -/

/-- One value of the `cartItems` JSON mapping: `{name, price, quantity}`. -/
structure CartItem where
  name : String
  price : ℚ
  quantity : ℤ
deriving DecidableEq, Repr

/-- The `cartItems` mapping, as an association list from product id to
cart item.  (A Python dict cannot repeat keys; theorems that depend on
dict semantics assume the keys are distinct.) -/
abbrev Cart := List (Nat × CartItem)

/-- The `customerData` JSON object. -/
structure CustomerData where
  fullName : String
  email : String
  phone : String
  deliveryAddress : String
  updateProfile : Bool
deriving DecidableEq, Repr

/-- The machine-readable fields of `utils.handle_api_error`: `error_type`,
`error_code` (HTTP status), and the `shortfall` extra datum attached to
minimum-order errors. -/
structure ApiErr where
  error_type : String
  error_code : Nat
  shortfall : Option ℚ
deriving DecidableEq, Repr

/-- The `orderSummary` object of a successful checkout response. -/
structure OrderSummary where
  customer : CustomerData
  items : Cart
  total : ℚ
  order_id : Nat
deriving DecidableEq, Repr

/-- The JSON response of the checkout endpoint: success with a summary, or
a structured error. -/
inductive CheckoutResponse where
  | ok (summary : OrderSummary)
  | err (e : ApiErr)
deriving DecidableEq, Repr

def tagValidation : String := "validation"

def tagMinimumOrder : String := "minimum_order"

def tagStock : String := "stock"

def tagNotFound : String := "not_found"

/-- `all(field in customer_data and customer_data[field] for field in
required_fields)`: the four contact fields are present and truthy
(non-empty). -/
def contactFieldsComplete (cd : CustomerData) : Bool :=
  !cd.fullName.isEmpty && !cd.email.isEmpty && !cd.phone.isEmpty &&
    !cd.deliveryAddress.isEmpty

def emptyStr : String := ""

/-- Python `s.split(maxsplit=1)`: skip leading whitespace; if nothing is
left the result is `[]`; otherwise the first whitespace-free word, and the
remainder after the following whitespace run when it is non-empty. -/
def pySplitMax1 (s : String) : List String :=
  let l := s.data.dropWhile Char.isWhitespace
  if l.isEmpty then []
  else
    let first := l.takeWhile (fun c => !c.isWhitespace)
    let rest := (l.dropWhile (fun c => !c.isWhitespace)).dropWhile Char.isWhitespace
    if rest.isEmpty then [⟨first⟩] else [⟨first⟩, ⟨rest⟩]

/-- The profile-update block of `checkout` (views.py lines 104-122): when
the user row exists, split `fullName` once on whitespace into first/last
name and save name, phone and address.  A whitespace-only `fullName` makes
`full_name[0]` raise `IndexError`, which the surrounding `except` swallows,
leaving the profile unchanged; a missing user row likewise. -/
def applyProfileUpdate (users : List UserProfile) (uid : Nat)
    (cd : CustomerData) : List UserProfile :=
  match users.find? (fun u => u.id == uid) with
  | none => users
  | some _ =>
    match pySplitMax1 cd.fullName with
    | [] => users
    | f :: rest =>
      users.map (fun u =>
        if u.id == uid then
          { u with
            first_name := f
            last_name := rest.headD emptyStr
            phone_number := cd.phone
            address := cd.deliveryAddress }
        else u)

/-- `sum(float(item['price']) * item['quantity'] for item in
cart_items.values())`. -/
def cartTotal (cart : Cart) : ℚ :=
  (cart.map (fun line => line.2.price * (line.2.quantity : ℚ))).sum

/-- `MIN_ORDER_AMOUNT = 3000`. -/
def MIN_ORDER_AMOUNT : ℚ := 3000

/-- `Product.objects.get(id=pid)`: first row with the given primary key
(unique when the store is well-formed). -/
def findProduct (products : List Product) (pid : Nat) : Option Product :=
  products.find? (fun p => p.id == pid)

/-- The stock-checking loop of `checkout` (views.py lines 152-166): walk
the cart lines in order; a missing product yields a `not_found` error
(404), an existing product with `stock_quantity < quantity` yields a
`stock` error (400); otherwise continue.  Note the lookup does not filter
on `is_active`. -/
def checkStock (products : List Product) : Cart → Option ApiErr
  | [] => none
  | (pid, item) :: rest =>
    match findProduct products pid with
    | none => some { error_type := tagNotFound, error_code := 404, shortfall := none }
    | some p =>
      if p.stock_quantity < item.quantity then
        some { error_type := tagStock, error_code := 400, shortfall := none }
      else
        checkStock products rest

/-- Save of a decremented product row: every row with the purchased
product's primary key loses `q` units. -/
def decrementStock (products : List Product) (pid : Nat) (q : ℤ) :
    List Product :=
  products.map (fun p =>
    if p.id == pid then { p with stock_quantity := p.stock_quantity - q } else p)

/-- The stock-update loop of `checkout` (views.py lines 190-195): for each
cart line with `quantity > 0`, decrement that product's stock. -/
def applyCartDecrements (products : List Product) : Cart → List Product
  | [] => products
  | (pid, item) :: rest =>
    applyCartDecrements
      (if 0 < item.quantity then decrementStock products pid item.quantity
       else products) rest

/-- The quantity a cart line actually removes from stock: the loop skips
lines with `quantity <= 0`. -/
def posQty (q : ℤ) : ℤ := if 0 < q then q else 0

/-- The quantity the (unique, under dict semantics) cart line for a
product requests; 0 when the product is not in the cart. -/
def purchasedQty (cart : Cart) (pid : Nat) : ℤ :=
  match cart.find? (fun l => l.1 == pid) with
  | some l => l.2.quantity
  | none => 0

/-- Total stock removed from a product id by the decrement loop, for an
arbitrary association list (sums over all matching lines). -/
def cartQtySum : Cart → Nat → ℤ
  | [], _ => 0
  | line :: rest, pid =>
    (if line.1 == pid then posQty line.2.quantity else 0) + cartQtySum rest pid

/-- The guarded profile-update step of `checkout`: only an authenticated
user who set `customerData.updateProfile` has the profile written. -/
def profileStep (store : Store) (userId : Option Nat) (cd : CustomerData) :
    Store :=
  match userId with
  | some uid =>
    if cd.updateProfile then
      { store with users := applyProfileUpdate store.users uid cd }
    else store
  | none => store

/-- The POST body of `inventory.views.checkout`: validate contact fields,
optionally update the user profile, validate the cart (non-empty, total at
least 3000), check stock for every line, then create the order, its items,
and decrement stock, returning the order summary. -/
def checkout (store : Store) (userId : Option Nat) (cd : CustomerData)
    (cart : Cart) : Store × CheckoutResponse :=
  if !contactFieldsComplete cd then
    (store, .err { error_type := tagValidation, error_code := 400, shortfall := none })
  else
    let store1 := profileStep store userId cd
    if cart.isEmpty then
      (store1, .err { error_type := tagValidation, error_code := 400, shortfall := none })
    else
      let total := cartTotal cart
      if total < MIN_ORDER_AMOUNT then
        (store1, .err { error_type := tagMinimumOrder, error_code := 400,
                        shortfall := some (MIN_ORDER_AMOUNT - total) })
      else
        match checkStock store1.products cart with
        | some e => (store1, .err e)
        | none =>
          let oid := store1.nextOrderId
          let order : Order :=
            { id := oid
              userId := userId
              full_name := cd.fullName
              email := cd.email
              phone := cd.phone
              address := cd.deliveryAddress
              total_amount := total
              status := statusPending }
          let items := cart.map (fun line =>
            OrderItem.mk oid line.1 line.2.quantity line.2.price)
          let store2 :=
            { store1 with
              orders := store1.orders ++ [order]
              orderItems := store1.orderItems ++ items
              products := applyCartDecrements store1.products cart
              nextOrderId := oid + 1 }
          (store2, .ok { customer := cd, items := cart, total := total, order_id := oid })

/-- `inventory.views.update_stock`: decrement `quantity` from the product
when `stock_quantity >= quantity`, else fail; a missing product fails. -/
def update_stock (store : Store) (product_id : Nat) (quantity : ℤ) :
    Store × Bool :=
  match findProduct store.products product_id with
  | none => (store, false)
  | some p =>
    if quantity ≤ p.stock_quantity then
      ({ store with products := decrementStock store.products product_id quantity },
       true)
    else
      (store, false)

/-- `inventory.views.quick_add_stock`: add `quantity` to the product's
stock unconditionally (no sign or range check on `quantity`). -/
def quick_add_stock (store : Store) (product_id : Nat) (quantity : ℤ) :
    Store × Bool :=
  match findProduct store.products product_id with
  | none => (store, false)
  | some _ =>
    ({ store with
        products := store.products.map (fun p =>
          if p.id == product_id then
            { p with stock_quantity := p.stock_quantity + quantity }
          else p) },
     true)

/-- `inventory.views.update_order_status`: set the order's `status` field
to the client-supplied string and save.  No membership check against
`STATUS_CHOICES` is performed. -/
def update_order_status (store : Store) (order_id : Nat) (status : String) :
    Store × Bool :=
  match store.orders.find? (fun o => o.id == order_id) with
  | none => (store, false)
  | some _ =>
    ({ store with
        orders := store.orders.map (fun o =>
          if o.id == order_id then { o with status := status } else o) },
     true)

/-! ## Quick-order list builder (`inventory.views.get_quick_order_lists`) -/

/-- Substring test on character lists (`needle` occurs contiguously in the
second argument). -/
def charsInfixOf (needle : List Char) : List Char → Bool
  | [] => needle.isEmpty
  | c :: t => needle.isPrefixOf (c :: t) || charsInfixOf needle t

/-- Django `__icontains`: case-insensitive substring match of `needle`
inside `hay` (lower-casing character by character). -/
def icontains (hay needle : String) : Bool :=
  charsInfixOf (needle.data.map Char.toLower) (hay.data.map Char.toLower)

/-- One entry of the hard-coded `quick_order_lists` table.  The code only
consults the `category_focus` key when gathering products; entries without
it (including the ones carrying a `products_query` key, which the code
never reads) take the all-categories path. -/
structure BundleDef where
  id : Nat
  name : String
  category_focus : Option (List String)
deriving DecidableEq, Repr

def quickList1 : BundleDef :=
  { id := 1, name := "Premium Diwali Package", category_focus := none }

def quickList2 : BundleDef :=
  { id := 2, name := "Family Celebration Pack",
    category_focus := some ["Family&Kids", "General"] }

def quickList3 : BundleDef :=
  { id := 3, name := "Kids Delight Collection",
    category_focus := some ["Boys", "Girls", "Family&Kids"] }

def quickList4 : BundleDef :=
  { id := 4, name := "Festive Sparkler Set", category_focus := none }

def quickList5 : BundleDef :=
  { id := 5, name := "Grand Celebration Bundle", category_focus := none }

/-- The five bundle definitions of `get_quick_order_lists` (display-only
fields such as emoji, color and description omitted). -/
def bundleDefs : List BundleDef :=
  [quickList1, quickList2, quickList3, quickList4, quickList5]

/-- `order_by('-price')`: stable sort by descending price. -/
def sortProductsByPriceDesc (l : List Product) : List Product :=
  List.insertionSort (fun a b => b.price ≤ a.price) l

/-- `Category.Meta.ordering = ['order', 'name']`: sort by the `order`
field, then name. -/
def sortCategories (l : List Category) : List Category :=
  List.insertionSort
    (fun a b => a.order < b.order ∨ (a.order = b.order ∧ a.name ≤ b.name)) l

/-- The name of a product's owning category (empty when the category row
is missing). -/
def productCategoryName (store : Store) (p : Product) : String :=
  match store.categories.find? (fun c => c.id == p.categoryId) with
  | some c => c.name
  | none => emptyStr

/-- `Product.objects.filter(is_active=True)`. -/
def activeProducts (store : Store) : List Product :=
  store.products.filter (fun p => p.is_active)

/-- Candidate gathering (views.py lines 759-771): with a `category_focus`,
for each focus name take the active products whose category name
icontains it, most expensive first; otherwise walk the categories having
active products (in their default order) and take each one's active
products, most expensive first. -/
def candidatesFor (store : Store) (bd : BundleDef) : List Product :=
  match bd.category_focus with
  | some cats =>
    (cats.map (fun cn =>
      sortProductsByPriceDesc ((activeProducts store).filter (fun p =>
        icontains (productCategoryName store p) cn)))).flatten
  | none =>
    let cats := sortCategories (store.categories.filter (fun c =>
      store.products.any (fun p => p.is_active && p.categoryId == c.id)))
    (cats.map (fun c =>
      sortProductsByPriceDesc ((activeProducts store).filter (fun p =>
        p.categoryId == c.id)))).flatten

/-- Deduplication by product id preserving order (views.py lines 774-780),
with the `seen` set as accumulator. -/
def dedupById : List Product → List Nat → List Product
  | [], _ => []
  | p :: rest, seen =>
    if seen.contains p.id then dedupById rest seen
    else p :: dedupById rest (p.id :: seen)

/-- The greedy selection loop (views.py lines 783-788): append candidates
in order until the running total reaches `MIN_PACK_AMOUNT` (= 3000). -/
def greedySelect : List Product → List Product → ℚ → List Product × ℚ
  | [], sel, t => (sel, t)
  | p :: rest, sel, t =>
    if MIN_ORDER_AMOUNT ≤ t then (sel, t)
    else greedySelect rest (sel ++ [p]) (t + p.price)

/-- The two greedy passes over a bundle's deduplicated candidates
(views.py lines 783-797): the main loop, then — only when still short of
the threshold — a second identical loop over the not-yet-selected
remainder (dead code: the remainder is then empty). -/
def greedyPhase (cands : List Product) : List Product × ℚ :=
  let r1 := greedySelect cands [] 0
  if r1.2 < MIN_ORDER_AMOUNT then
    greedySelect (cands.filter (fun p => !(r1.1.any (fun q => q.id == p.id))))
      r1.1 r1.2
  else r1

/-- The variety floor (views.py lines 799-805): when fewer than 4 products
were selected, append up to `4 - len` further active products not already
selected (in table order), regardless of the threshold. -/
def topUp (store : Store) (sel : List Product) : List Product :=
  if sel.length < 4 then
    sel ++ ((activeProducts store).filter (fun p =>
      !(sel.any (fun q => q.id == p.id)))).take (4 - sel.length)
  else sel

/-- One bundle's selected products (views.py lines 755-805): dedup the
candidates, run the greedy loop(s), then top up to the floor of 4. -/
def buildBundleProducts (store : Store) (bd : BundleDef) : List Product :=
  topUp store (greedyPhase (dedupById (candidatesFor store bd) [])).1

/-- The bundle total reported in the response (views.py line 821): each
product is listed with quantity 1, so the total is the sum of prices. -/
def bundleTotal (ps : List Product) : ℚ :=
  (ps.map (fun p => p.price)).sum

/-- `get_quick_order_lists`: every bundle definition paired with its
selected products. -/
def getQuickOrderLists (store : Store) : List (BundleDef × List Product) :=
  bundleDefs.map (fun bd => (bd, buildBundleProducts store bd))

/-! ## Concrete sample data for witnesses and counterexamples -/

/-- A complete customer contact record (all four required fields non-empty,
no profile update requested). -/
def sampleCustomer : CustomerData :=
  { fullName := "Asha Rao"
    email := "asha@example.com"
    phone := "9876543210"
    deliveryAddress := "12 Main Street"
    updateProfile := false }

/-- The same contact record with `updateProfile` set. -/
def sampleCustomerUpd : CustomerData :=
  { sampleCustomer with updateProfile := true }

def rocket : Product :=
  { id := 1, name := "Rocket", categoryId := 1, price := 3500,
    stock_quantity := 10, is_active := true }

def sparkler : Product :=
  { id := 2, name := "Sparkler", categoryId := 1, price := 100,
    stock_quantity := 5, is_active := true }

/-- An inactive product with stock on hand. -/
def dud : Product :=
  { id := 3, name := "Dud", categoryId := 1, price := 3500,
    stock_quantity := 4, is_active := false }

def generalCat : Category := { id := 1, name := "General", order := 0 }

def sampleUser : UserProfile :=
  { id := 7, first_name := "Old", last_name := "Name",
    phone_number := "0000000000", address := "1 Old Street" }

/-- A small well-formed store used by several concrete evaluations. -/
def baseStore : Store :=
  { categories := [generalCat]
    products := [rocket, sparkler, dud]
    orders := []
    orderItems := []
    users := [sampleUser]
    nextOrderId := 1 }

/-- A store holding one pending order (for the order-status update). -/
def orderedStore : Store :=
  { baseStore with
    orders := [{ id := 1, userId := none, full_name := "Asha Rao",
                 email := "asha@example.com", phone := "9876543210",
                 address := "12 Main Street", total_amount := 3500,
                 status := statusPending }]
    nextOrderId := 2 }

def qp1 : Product :=
  { id := 1, name := "Flower Pot", categoryId := 1, price := 2000,
    stock_quantity := 50, is_active := true }

def qp2 : Product :=
  { id := 2, name := "Ground Chakkar", categoryId := 2, price := 2000,
    stock_quantity := 50, is_active := true }

def qp3 : Product :=
  { id := 3, name := "Rocket Deluxe", categoryId := 3, price := 2000,
    stock_quantity := 50, is_active := true }

def qp4 : Product :=
  { id := 4, name := "Color Fountain", categoryId := 4, price := 2000,
    stock_quantity := 50, is_active := true }

/-- A store rich enough for every quick-order bundle: four categories whose
names match the bundle category filters, one active product of price 2000
in each. -/
def qoStore : Store :=
  { categories :=
      [ { id := 1, name := "General", order := 0 },
        { id := 2, name := "Family&Kids", order := 1 },
        { id := 3, name := "Boys", order := 2 },
        { id := 4, name := "Girls", order := 3 } ]
    products := [qp1, qp2, qp3, qp4]
    orders := []
    orderItems := []
    users := []
    nextOrderId := 1 }

/-- A store too poor for the quick-order guarantees: a single active
product of price 100. -/
def poorStore : Store :=
  { categories := [generalCat]
    products := [sparkler]
    orders := []
    orderItems := []
    users := []
    nextOrderId := 1 }

/-! ## Theorems: WhatsApp client -/

/-- Validation happens before the dry-run/production branch, so the
outcome of `send_text` on an invalid input does not depend on the mode
beyond the reported `mode` string. -/
theorem sendText_rejected_of_invalid_phone (dry_run : Bool)
    (recipient body : String) (err : String)
    (h : validatePhoneNumber recipient = some err) :
    sendText dry_run recipient body = SendOutcome.rejected err (modeStr dry_run) := by
  unfold sendText
  rw [h]

/-- A phone whose cleaned form does not begin with `+` fails the first
validation check with the must-start-with-plus message. -/
theorem validatePhoneNumber_no_plus (phone : String)
    (h : (cleanPhone phone).data.head? ≠ some plusChar) :
    validatePhoneNumber phone = some msgPlusRequired := by
  unfold validatePhoneNumber
  simp only [h, ne_eq, not_false_eq_true, if_true, ite_true]

/-- The phone number passes validation iff it passes the three checks of
`_validate_phone_number`. -/
theorem validatePhoneNumber_eq_none_iff (phone : String) :
    validatePhoneNumber phone = none ↔
      ((cleanPhone phone).data.head? = some plusChar ∧
        pyIsDigit ⟨(cleanPhone phone).data.drop 1⟩ = true ∧
        ¬(cleanPhone phone).length < 10) := by
  simp only [validatePhoneNumber]
  split_ifs with h1 h2 h3 <;> simp_all

/-- C7 (counterexample): the claim is false as stated, at two explicit
inputs.  `"+123456789"` has only 9 digits after the `+` — fewer than the
10 the claim requires — yet dry-run `send_text` succeeds, because the
code's length check `len(cleaned) < 10` counts the `+` character itself.
And the one-space body `" "` is a non-empty string — none of the claim's
failure conditions — yet `send_text` rejects it, because the code strips
whitespace before testing emptiness. -/
theorem sendText_validation_claim_counterexample :
    (((cleanPhone ("+123456789")).data.drop 1).length = 9 ∧
      outcomeSuccess (sendText true ("+123456789") ("hello")) = some true) ∧
    ((" " : String) ≠ emptyStr ∧
      outcomeSuccess (sendText true ("+911234567890") (" ")) = some false) := by
  constructor
  · exact ⟨by decide, by decide⟩
  · exact ⟨by decide, by decide⟩

/-- C7 (amended): in dry-run mode `send_text` fails exactly when the
cleaned phone number does not begin with `+`, or what follows the `+` is
empty or contains a non-digit, or the cleaned string (including the `+`)
is shorter than 10 characters — i.e. fewer than 9 digits — or the message
body is blank (empty or whitespace-only); and a phone number not starting
with `+` is rejected with the must-start-with-`+` message in both dry-run
and production mode. -/
theorem sendText_failure_characterisation (recipient body : String) :
    (outcomeSuccess (sendText true recipient body) = some false ↔
      ((cleanPhone recipient).data.head? ≠ some plusChar ∨
        pyIsDigit ⟨(cleanPhone recipient).data.drop 1⟩ = false ∨
        (cleanPhone recipient).length < 10 ∨
        isBlankBody body = true)) ∧
    (∀ dry_run : Bool, (cleanPhone recipient).data.head? ≠ some plusChar →
      sendText dry_run recipient body =
        SendOutcome.rejected msgPlusRequired (modeStr dry_run)) := by
  constructor
  · cases hv : validatePhoneNumber recipient with
    | some err =>
      rw [sendText_rejected_of_invalid_phone true recipient body err hv]
      have hne : ¬((cleanPhone recipient).data.head? = some plusChar ∧
          pyIsDigit ⟨(cleanPhone recipient).data.drop 1⟩ = true ∧
          ¬(cleanPhone recipient).length < 10) := by
        rw [← validatePhoneNumber_eq_none_iff, hv]
        simp
      simp only [outcomeSuccess, true_iff]
      by_cases h1 : (cleanPhone recipient).data.head? = some plusChar <;>
        by_cases h2 : pyIsDigit ⟨(cleanPhone recipient).data.drop 1⟩ = true <;>
        simp_all
    | none =>
      obtain ⟨hc1, hc2, hc3⟩ := (validatePhoneNumber_eq_none_iff recipient).mp hv
      rw [List.drop_one] at hc2
      unfold sendText
      rw [hv]
      cases hb : isBlankBody body with
      | true => simp [outcomeSuccess, hb]
      | false => simp [outcomeSuccess, hc1, hc2, hc3, hb, List.drop_one]
  · intro dry_run h
    exact sendText_rejected_of_invalid_phone dry_run recipient body _
      (validatePhoneNumber_no_plus recipient h)

/-- C7 (witness): the amended characterisation applied at the concrete
inputs `"1234567890"` (no `+`) and `"hello"`, in production mode. -/
theorem sendText_failure_characterisation_witness :
    sendText false ("1234567890") ("hello") =
      SendOutcome.rejected msgPlusRequired productionStr := by
  have h := (sendText_failure_characterisation ("1234567890") ("hello")).2
    false (by decide)
  simpa [modeStr] using h

/-- C8: in dry-run mode (the default configuration), `send_text` on a
valid phone number and a non-blank body returns `success=True`,
`mode="dry_run"`, an echo of the fully built payload
(`messaging_product="whatsapp"`, the recipient, `type="text"`, the text
body), and performs no outbound network call. -/
theorem sendText_dry_run_success (recipient body : String)
    (hphone : validatePhoneNumber recipient = none)
    (hbody : isBlankBody body = false) :
    sendText defaultDryRun recipient body =
      SendOutcome.dryRunOk (buildPayload recipient body) recipient ∧
    outcomeSuccess (sendText defaultDryRun recipient body) = some true ∧
    outcomeMode (sendText defaultDryRun recipient body) = dryRunStr ∧
    networkCalled (sendText defaultDryRun recipient body) = false ∧
    buildPayload recipient body =
      { messaging_product := whatsappStr
        recipient := recipient
        type := textStr
        preview_url := false
        body := body } := by
  have hsend : sendText defaultDryRun recipient body =
      SendOutcome.dryRunOk (buildPayload recipient body) recipient := by
    unfold sendText
    rw [hphone, hbody]
    rfl
  refine ⟨hsend, ?_, ?_, ?_, rfl⟩ <;> rw [hsend] <;> rfl

/-- C8 (witness): the dry-run success theorem applied at the concrete
valid input `"+911234567890"` / `"Your order has shipped"`. -/
theorem sendText_dry_run_success_witness :
    sendText defaultDryRun ("+911234567890") ("Your order has shipped") =
      SendOutcome.dryRunOk
        (buildPayload ("+911234567890") ("Your order has shipped"))
        ("+911234567890") :=
  (sendText_dry_run_success ("+911234567890") ("Your order has shipped")
    (by decide) (by decide)).1

/-! ## Lemmas about the checkout pipeline -/

theorem profileStep_products (s : Store) (u : Option Nat) (cd : CustomerData) :
    (profileStep s u cd).products = s.products := by
  cases u with
  | none => rfl
  | some uid =>
    simp only [profileStep]
    split <;> rfl

theorem profileStep_orders (s : Store) (u : Option Nat) (cd : CustomerData) :
    (profileStep s u cd).orders = s.orders := by
  cases u with
  | none => rfl
  | some uid =>
    simp only [profileStep]
    split <;> rfl

theorem profileStep_orderItems (s : Store) (u : Option Nat) (cd : CustomerData) :
    (profileStep s u cd).orderItems = s.orderItems := by
  cases u with
  | none => rfl
  | some uid =>
    simp only [profileStep]
    split <;> rfl

theorem profileStep_nextOrderId (s : Store) (u : Option Nat) (cd : CustomerData) :
    (profileStep s u cd).nextOrderId = s.nextOrderId := by
  cases u with
  | none => rfl
  | some uid =>
    simp only [profileStep]
    split <;> rfl

/-- The stock-check loop accepts the cart exactly when every line
resolves to a product with sufficient stock. -/
theorem checkStock_eq_none_iff (products : List Product) (cart : Cart) :
    checkStock products cart = none ↔
      ∀ line ∈ cart, ∃ p, findProduct products line.1 = some p ∧
        line.2.quantity ≤ p.stock_quantity := by
  induction cart with
  | nil => simp [checkStock]
  | cons line rest ih =>
    obtain ⟨pid, item⟩ := line
    constructor
    · intro h
      cases hf : findProduct products pid with
      | none => simp [checkStock, hf] at h
      | some p =>
        by_cases hlt : p.stock_quantity < item.quantity
        · simp [checkStock, hf, hlt] at h
        · intro l hl
          rcases List.mem_cons.mp hl with rfl | hl'
          · exact ⟨p, hf, not_lt.mp hlt⟩
          · have h' : checkStock products rest = none := by
              simpa [checkStock, hf, hlt] using h
            exact (ih.mp h') l hl'
    · intro h
      obtain ⟨p, hf, hq⟩ := h (pid, item) (List.mem_cons_self _ _)
      have hrest : checkStock products rest = none :=
        ih.mpr (fun l hl => h l (List.mem_cons_of_mem _ hl))
      simp [checkStock, hf, not_lt.mpr hq, hrest]

/-- If every cart line resolves to an existing product but some line
requests more than its product's stock, the stock-check loop reports a
`stock` error. -/
theorem checkStock_eq_stock_err (products : List Product) (cart : Cart)
    (hex : ∀ line ∈ cart, ∃ p, findProduct products line.1 = some p)
    (hbad : ∃ line ∈ cart, ∀ p, findProduct products line.1 = some p →
      p.stock_quantity < line.2.quantity) :
    checkStock products cart =
      some { error_type := tagStock, error_code := 400, shortfall := none } := by
  induction cart with
  | nil => simp at hbad
  | cons line rest ih =>
    obtain ⟨pid, item⟩ := line
    obtain ⟨p, hp⟩ := hex (pid, item) (List.mem_cons_self _ _)
    by_cases hlt : p.stock_quantity < item.quantity
    · simp [checkStock, hp, hlt]
    · obtain ⟨l, hl, hfl⟩ := hbad
      rcases List.mem_cons.mp hl with rfl | hl'
      · exact absurd (hfl p hp) hlt
      · simp only [checkStock, hp, if_neg hlt]
        exact ih (fun l hl => hex l (List.mem_cons_of_mem _ hl)) ⟨l, hl', hfl⟩

/-- If every cart line that resolves has sufficient stock but some line
references a missing product, the stock-check loop reports a `not_found`
error (status 404). -/
theorem checkStock_eq_not_found (products : List Product) (cart : Cart)
    (hsuff : ∀ line ∈ cart, ∀ p, findProduct products line.1 = some p →
      line.2.quantity ≤ p.stock_quantity)
    (hmissing : ∃ line ∈ cart, findProduct products line.1 = none) :
    checkStock products cart =
      some { error_type := tagNotFound, error_code := 404, shortfall := none } := by
  induction cart with
  | nil => simp at hmissing
  | cons line rest ih =>
    obtain ⟨pid, item⟩ := line
    cases hf : findProduct products pid with
    | none => simp [checkStock, hf]
    | some p =>
      have hq := hsuff (pid, item) (List.mem_cons_self _ _) p hf
      obtain ⟨l, hl, hfl⟩ := hmissing
      rcases List.mem_cons.mp hl with rfl | hl'
      · rw [hf] at hfl
        exact absurd hfl (by simp)
      · simp only [checkStock, hf, if_neg (not_lt.mpr hq)]
        exact ih (fun l hl p hp => hsuff l (List.mem_cons_of_mem _ hl) p hp)
          ⟨l, hl', hfl⟩

theorem cartQtySum_eq_zero_of_not_mem (cart : Cart) (pid : Nat)
    (h : pid ∉ cart.map Prod.fst) : cartQtySum cart pid = 0 := by
  induction cart with
  | nil => rfl
  | cons line rest ih =>
    simp only [List.map_cons, List.mem_cons, not_or] at h
    have hne : (line.1 == pid) = false := by
      simp only [beq_eq_false_iff_ne, ne_eq]
      exact fun he => h.1 he.symm
    simp [cartQtySum, hne, ih h.2]

/-- Under dict semantics (distinct cart keys), the total decremented from
a product id is the positive part of its unique line's quantity. -/
theorem cartQtySum_eq_posQty_purchased (cart : Cart) (pid : Nat)
    (hkeys : (cart.map Prod.fst).Nodup) :
    cartQtySum cart pid = posQty (purchasedQty cart pid) := by
  induction cart with
  | nil => simp [cartQtySum, purchasedQty, posQty]
  | cons line rest ih =>
    simp only [List.map_cons, List.nodup_cons] at hkeys
    by_cases hq : line.1 = pid
    · have hrest : cartQtySum rest pid = 0 := by
        apply cartQtySum_eq_zero_of_not_mem
        rw [← hq]
        exact hkeys.1
      simp [cartQtySum, purchasedQty, hq, hrest]
    · have hne : (line.1 == pid) = false := by
        simp only [beq_eq_false_iff_ne, ne_eq]
        exact hq
      simp [cartQtySum, purchasedQty, hne, ih hkeys.2]

/-- With positive quantities on every line, the quantity removed equals
the quantity purchased. -/
theorem posQty_purchasedQty (cart : Cart) (pid : Nat)
    (hqty : ∀ line ∈ cart, 1 ≤ line.2.quantity) :
    posQty (purchasedQty cart pid) = purchasedQty cart pid := by
  unfold purchasedQty
  cases hf : cart.find? (fun l => l.1 == pid) with
  | none => simp [posQty]
  | some l =>
    have hmem := List.mem_of_find?_eq_some hf
    have hge := hqty l hmem
    simp only [posQty, if_pos (by omega : (0 : ℤ) < l.2.quantity)]

/-- The stock-decrement loop, in closed form: every product row loses the
total quantity its id accumulates over the cart lines. -/
theorem applyCartDecrements_eq_map (cart : Cart) :
    ∀ products : List Product,
      applyCartDecrements products cart =
        products.map (fun p =>
          { p with stock_quantity := p.stock_quantity - cartQtySum cart p.id }) := by
  induction cart with
  | nil =>
    intro products
    have h : ∀ p ∈ products,
        ({ p with stock_quantity := p.stock_quantity - cartQtySum [] p.id }) = p := by
      intro p _
      simp [cartQtySum]
    simp only [applyCartDecrements]
    rw [List.map_congr_left h]
    simp
  | cons line rest ih =>
    intro products
    obtain ⟨pid, item⟩ := line
    simp only [applyCartDecrements]
    rw [ih]
    by_cases hq : 0 < item.quantity
    · simp only [if_pos hq, decrementStock, List.map_map]
      apply List.map_congr_left
      intro p _
      simp only [Function.comp_apply]
      by_cases hid : p.id = pid
      · have hb : (p.id == pid) = true := by simp [hid]
        have hb2 : (pid == p.id) = true := by simp [hid]
        simp only [hb, if_true, cartQtySum, hb2, posQty, if_pos hq]
        simp only [Product.mk.injEq, and_true, true_and]
        omega
      · have hb : (p.id == pid) = false := by simp [hid]
        have hb2 : (pid == p.id) = false := by
          simp only [beq_eq_false_iff_ne, ne_eq]
          exact fun he => hid he.symm
        simp [hb, hb2, cartQtySum]
    · simp only [if_neg hq]
      apply List.map_congr_left
      intro p _
      have hpq : posQty item.quantity = 0 := by simp [posQty, hq]
      by_cases hid : pid = p.id
      · have hb2 : (pid == p.id) = true := by simp [hid]
        simp [cartQtySum, hb2, hpq]
      · have hb2 : (pid == p.id) = false := by simp [hid]
        simp [cartQtySum, hb2]

/-! ## Theorems: checkout -/

/-- Core success-branch lemma: with complete contacts, a non-empty cart
with distinct keys and positive quantities, total at least the minimum,
and every line resolving with sufficient stock, checkout commits the
order, its items, and the stock decrements, and answers the summary. -/
theorem checkout_success_eq (store : Store) (userId : Option Nat)
    (cd : CustomerData) (cart : Cart)
    (hcontact : contactFieldsComplete cd = true)
    (hne : cart ≠ [])
    (hkeys : (cart.map Prod.fst).Nodup)
    (hqty : ∀ line ∈ cart, 1 ≤ line.2.quantity)
    (htotal : MIN_ORDER_AMOUNT ≤ cartTotal cart)
    (hstock : ∀ line ∈ cart, ∃ p, findProduct store.products line.1 = some p ∧
      line.2.quantity ≤ p.stock_quantity) :
    (checkout store userId cd cart).2 =
      CheckoutResponse.ok
        { customer := cd, items := cart,
          total := cartTotal cart, order_id := store.nextOrderId } ∧
    (checkout store userId cd cart).1.orders =
      store.orders ++
        [{ id := store.nextOrderId, userId := userId,
           full_name := cd.fullName, email := cd.email, phone := cd.phone,
           address := cd.deliveryAddress, total_amount := cartTotal cart,
           status := statusPending }] ∧
    (checkout store userId cd cart).1.orderItems =
      store.orderItems ++ cart.map (fun line =>
        OrderItem.mk store.nextOrderId line.1 line.2.quantity line.2.price) ∧
    (checkout store userId cd cart).1.products =
      store.products.map (fun p =>
        { p with stock_quantity := p.stock_quantity - purchasedQty cart p.id }) := by
  have hemp : cart.isEmpty = false := by
    cases cart with
    | nil => exact absurd rfl hne
    | cons a l => rfl
  have hmin : ¬(cartTotal cart < MIN_ORDER_AMOUNT) := not_lt.mpr htotal
  have hcs : checkStock (profileStep store userId cd).products cart = none := by
    rw [profileStep_products]
    exact (checkStock_eq_none_iff _ _).mpr hstock
  simp only [checkout, hcontact, Bool.not_true, Bool.false_eq_true, if_false,
    hemp, hmin, hcs]
  refine ⟨by rw [profileStep_nextOrderId], ?_, ?_, ?_⟩
  · rw [profileStep_orders, profileStep_nextOrderId]
  · rw [profileStep_orderItems, profileStep_nextOrderId]
  · rw [profileStep_products, applyCartDecrements_eq_map]
    apply List.map_congr_left
    intro p _
    rw [cartQtySum_eq_posQty_purchased cart p.id hkeys,
      posQty_purchasedQty cart p.id hqty]

/-- Core minimum-order lemma: with complete contacts and a non-empty cart
whose total is below the minimum, checkout reports the `minimum_order`
error with the exact shortfall, leaving orders, items and products
untouched. -/
theorem checkout_min_order_eq (store : Store) (userId : Option Nat)
    (cd : CustomerData) (cart : Cart)
    (hcontact : contactFieldsComplete cd = true)
    (hne : cart ≠ [])
    (hlt : cartTotal cart < MIN_ORDER_AMOUNT) :
    (checkout store userId cd cart).2 =
      CheckoutResponse.err
        { error_type := tagMinimumOrder, error_code := 400,
          shortfall := some (MIN_ORDER_AMOUNT - cartTotal cart) } ∧
    (checkout store userId cd cart).1.orders = store.orders ∧
    (checkout store userId cd cart).1.orderItems = store.orderItems ∧
    (checkout store userId cd cart).1.products = store.products := by
  have hemp : cart.isEmpty = false := by
    cases cart with
    | nil => exact absurd rfl hne
    | cons a l => rfl
  simp only [checkout, hcontact, Bool.not_true, Bool.false_eq_true, if_false,
    hemp, if_pos hlt]
  exact ⟨by trivial, profileStep_orders store userId cd,
    profileStep_orderItems store userId cd, profileStep_products store userId cd⟩

/-- C1: for a checkout request with complete contact fields, a non-empty
cart (distinct keys, quantities at least 1 as the data model requires)
whose total is at least 3000, and every referenced product existing with
stock at least the requested quantity: checkout answers success with an
order summary, appends exactly one `pending` order carrying the computed
total, appends exactly one order item per cart line capturing the
client-submitted unit price and quantity, and decrements each purchased
product's stock by exactly the purchased quantity. -/
theorem checkout_success_creates_order (store : Store) (userId : Option Nat)
    (cd : CustomerData) (cart : Cart)
    (hcontact : contactFieldsComplete cd = true)
    (hne : cart ≠ [])
    (hkeys : (cart.map Prod.fst).Nodup)
    (hqty : ∀ line ∈ cart, 1 ≤ line.2.quantity)
    (htotal : MIN_ORDER_AMOUNT ≤ cartTotal cart)
    (hstock : ∀ line ∈ cart, ∃ p, findProduct store.products line.1 = some p ∧
      line.2.quantity ≤ p.stock_quantity) :
    (checkout store userId cd cart).2 =
      CheckoutResponse.ok
        { customer := cd, items := cart,
          total := cartTotal cart, order_id := store.nextOrderId } ∧
    (checkout store userId cd cart).1.orders =
      store.orders ++
        [{ id := store.nextOrderId, userId := userId,
           full_name := cd.fullName, email := cd.email, phone := cd.phone,
           address := cd.deliveryAddress, total_amount := cartTotal cart,
           status := statusPending }] ∧
    (checkout store userId cd cart).1.orderItems =
      store.orderItems ++ cart.map (fun line =>
        OrderItem.mk store.nextOrderId line.1 line.2.quantity line.2.price) ∧
    (checkout store userId cd cart).1.products =
      store.products.map (fun p =>
        { p with stock_quantity := p.stock_quantity - purchasedQty cart p.id }) :=
  checkout_success_eq store userId cd cart hcontact hne hkeys hqty htotal hstock

/-- C1 (witness): the success theorem applied to the concrete store
`baseStore` and the one-line cart `{1: {name: "Rocket", price: 3500,
quantity: 1}}`. -/
theorem checkout_success_creates_order_witness :
    (checkout baseStore none sampleCustomer
      [(1, { name := "Rocket", price := 3500, quantity := 1 })]).2 =
      CheckoutResponse.ok
        { customer := sampleCustomer
          items := [(1, { name := "Rocket", price := 3500, quantity := 1 })]
          total := cartTotal [(1, { name := "Rocket", price := 3500, quantity := 1 })]
          order_id := baseStore.nextOrderId } :=
  (checkout_success_creates_order baseStore none sampleCustomer
    [(1, { name := "Rocket", price := 3500, quantity := 1 })]
    (by decide) (by decide) (by decide) (by decide)
    (by norm_num [cartTotal, MIN_ORDER_AMOUNT])
    (fun line hl => by
      rw [List.mem_singleton] at hl
      subst hl
      exact ⟨rocket, rfl, by decide⟩)).1

/-- C2: for a checkout request with complete contact fields and a
non-empty cart whose total is strictly below 3000: checkout answers a
structured `minimum_order` failure with code 400 and shortfall
`3000 - total`, and no order is created, no order item is created, and no
product's stock changes. -/
theorem checkout_minimum_order_rejected (store : Store) (userId : Option Nat)
    (cd : CustomerData) (cart : Cart)
    (hcontact : contactFieldsComplete cd = true)
    (hne : cart ≠ [])
    (hlt : cartTotal cart < MIN_ORDER_AMOUNT) :
    (checkout store userId cd cart).2 =
      CheckoutResponse.err
        { error_type := tagMinimumOrder, error_code := 400,
          shortfall := some (MIN_ORDER_AMOUNT - cartTotal cart) } ∧
    (checkout store userId cd cart).1.orders = store.orders ∧
    (checkout store userId cd cart).1.orderItems = store.orderItems ∧
    (checkout store userId cd cart).1.products = store.products :=
  checkout_min_order_eq store userId cd cart hcontact hne hlt

/-- C2 (witness): the minimum-order theorem applied to `baseStore` and a
cart of two sparklers (total 200, shortfall 2800). -/
theorem checkout_minimum_order_rejected_witness :
    (checkout baseStore none sampleCustomer
      [(2, { name := "Sparkler", price := 100, quantity := 2 })]).2 =
      CheckoutResponse.err
        { error_type := tagMinimumOrder, error_code := 400,
          shortfall := some (MIN_ORDER_AMOUNT -
            cartTotal [(2, { name := "Sparkler", price := 100, quantity := 2 })]) } :=
  (checkout_minimum_order_rejected baseStore none sampleCustomer
    [(2, { name := "Sparkler", price := 100, quantity := 2 })]
    (by decide) (by decide)
    (by norm_num [cartTotal, MIN_ORDER_AMOUNT])).1

/-- C3 (counterexample): the claim is false as stated.  The cart
`{2: quantity 10}` requests more than the sparkler's stock of 5, yet
checkout reports `minimum_order` (the total 1000 is below 3000), not
`stock` — the minimum-order check runs before the stock check. -/
theorem checkout_stock_claim_counterexample :
    sparkler.stock_quantity <
      (({ name := "Sparkler", price := 100, quantity := 10 } : CartItem)).quantity ∧
    (checkout baseStore none sampleCustomer
      [(2, { name := "Sparkler", price := 100, quantity := 10 })]).2 =
      CheckoutResponse.err
        { error_type := tagMinimumOrder, error_code := 400,
          shortfall := some 2000 } := by
  refine ⟨by decide, ?_⟩
  have h := (checkout_min_order_eq baseStore none sampleCustomer
    [(2, { name := "Sparkler", price := 100, quantity := 10 })]
    (by decide) (by decide)
    (by norm_num [cartTotal, MIN_ORDER_AMOUNT])).1
  rw [h]
  have ht : MIN_ORDER_AMOUNT -
      cartTotal [(2, { name := "Sparkler", price := 100, quantity := 10 })] =
      2000 := by
    norm_num [cartTotal, MIN_ORDER_AMOUNT]
  rw [ht]

/-- C3 (amended): for a checkout request with complete contact fields, a
non-empty cart with total at least 3000, every referenced product
existing, and at least one line requesting more than its product's stock:
checkout answers a structured `stock` failure (code 400), and the orders,
order items and products of the store are unchanged — including the stock
of the other, individually satisfiable lines. -/
theorem checkout_stock_rejected (store : Store) (userId : Option Nat)
    (cd : CustomerData) (cart : Cart)
    (hcontact : contactFieldsComplete cd = true)
    (hne : cart ≠ [])
    (htotal : MIN_ORDER_AMOUNT ≤ cartTotal cart)
    (hex : ∀ line ∈ cart, ∃ p, findProduct store.products line.1 = some p)
    (hbad : ∃ line ∈ cart, ∀ p, findProduct store.products line.1 = some p →
      p.stock_quantity < line.2.quantity) :
    (checkout store userId cd cart).2 =
      CheckoutResponse.err
        { error_type := tagStock, error_code := 400, shortfall := none } ∧
    (checkout store userId cd cart).1.orders = store.orders ∧
    (checkout store userId cd cart).1.orderItems = store.orderItems ∧
    (checkout store userId cd cart).1.products = store.products := by
  have hemp : cart.isEmpty = false := by
    cases cart with
    | nil => exact absurd rfl hne
    | cons a l => rfl
  have hmin : ¬(cartTotal cart < MIN_ORDER_AMOUNT) := not_lt.mpr htotal
  have hcs : checkStock (profileStep store userId cd).products cart =
      some { error_type := tagStock, error_code := 400, shortfall := none } := by
    rw [profileStep_products]
    exact checkStock_eq_stock_err store.products cart hex hbad
  simp only [checkout, hcontact, Bool.not_true, Bool.false_eq_true, if_false,
    hemp, hmin, hcs]
  exact ⟨by trivial, profileStep_orders store userId cd,
    profileStep_orderItems store userId cd, profileStep_products store userId cd⟩

/-- C3 (witness): the amended theorem at a two-line cart on `baseStore`:
line 1 (rocket, quantity 1) is individually satisfiable, line 2 requests
10 sparklers with only 5 in stock; the total 4500 passes the minimum. -/
theorem checkout_stock_rejected_witness :
    (checkout baseStore none sampleCustomer
      [(1, { name := "Rocket", price := 3500, quantity := 1 }),
       (2, { name := "Sparkler", price := 100, quantity := 10 })]).2 =
      CheckoutResponse.err
        { error_type := tagStock, error_code := 400, shortfall := none } ∧
    (checkout baseStore none sampleCustomer
      [(1, { name := "Rocket", price := 3500, quantity := 1 }),
       (2, { name := "Sparkler", price := 100, quantity := 10 })]).1.products =
      baseStore.products :=
  have h := checkout_stock_rejected baseStore none sampleCustomer
    [(1, { name := "Rocket", price := 3500, quantity := 1 }),
     (2, { name := "Sparkler", price := 100, quantity := 10 })]
    (by decide) (by decide)
    (by norm_num [cartTotal, MIN_ORDER_AMOUNT])
    (fun line hl => by
      rcases List.mem_cons.mp hl with rfl | hl'
      · exact ⟨rocket, rfl⟩
      · rw [List.mem_singleton] at hl'
        subst hl'
        exact ⟨sparkler, rfl⟩)
    ⟨(2, { name := "Sparkler", price := 100, quantity := 10 }),
      by decide,
      fun p hp => by
        have hs : findProduct baseStore.products 2 = some sparkler := rfl
        rw [hs, Option.some.injEq] at hp
        subst hp
        decide⟩
  ⟨h.1, h.2.2.2⟩

/-- C5 (counterexample): the claim is false as stated — a cart line
referencing the existing but inactive product `dud` is not rejected as
`not_found`: the stock-check lookup does not filter on `is_active`, so the
checkout succeeds. -/
theorem checkout_inactive_product_counterexample :
    dud.is_active = false ∧
    (checkout baseStore none sampleCustomer
      [(3, { name := "Dud", price := 3500, quantity := 1 })]).2 =
      CheckoutResponse.ok
        { customer := sampleCustomer
          items := [(3, { name := "Dud", price := 3500, quantity := 1 })]
          total := 3500
          order_id := 1 } := by
  refine ⟨by decide, ?_⟩
  have h := (checkout_success_eq baseStore none sampleCustomer
    [(3, { name := "Dud", price := 3500, quantity := 1 })]
    (by decide) (by decide) (by decide) (by decide)
    (by norm_num [cartTotal, MIN_ORDER_AMOUNT])
    (fun line hl => by
      rw [List.mem_singleton] at hl
      subst hl
      exact ⟨dud, rfl, by decide⟩)).1
  rw [h]
  have ht : cartTotal [(3, { name := "Dud", price := 3500, quantity := 1 })] =
      3500 := by
    norm_num [cartTotal]
  rw [ht]
  rfl

/-- C5 (amended): for a checkout request with complete contact fields, a
non-empty cart with total at least 3000, every line that resolves to an
existing product having sufficient stock, and at least one line
referencing a missing product id: checkout answers a structured
`not_found` failure with status 404, and the orders, order items and
products of the store are unchanged.  (The `is_active` flag is never
consulted: inactive products are purchasable.) -/
theorem checkout_not_found_rejected (store : Store) (userId : Option Nat)
    (cd : CustomerData) (cart : Cart)
    (hcontact : contactFieldsComplete cd = true)
    (hne : cart ≠ [])
    (htotal : MIN_ORDER_AMOUNT ≤ cartTotal cart)
    (hsuff : ∀ line ∈ cart, ∀ p, findProduct store.products line.1 = some p →
      line.2.quantity ≤ p.stock_quantity)
    (hmissing : ∃ line ∈ cart, findProduct store.products line.1 = none) :
    (checkout store userId cd cart).2 =
      CheckoutResponse.err
        { error_type := tagNotFound, error_code := 404, shortfall := none } ∧
    (checkout store userId cd cart).1.orders = store.orders ∧
    (checkout store userId cd cart).1.orderItems = store.orderItems ∧
    (checkout store userId cd cart).1.products = store.products := by
  have hemp : cart.isEmpty = false := by
    cases cart with
    | nil => exact absurd rfl hne
    | cons a l => rfl
  have hmin : ¬(cartTotal cart < MIN_ORDER_AMOUNT) := not_lt.mpr htotal
  have hcs : checkStock (profileStep store userId cd).products cart =
      some { error_type := tagNotFound, error_code := 404, shortfall := none } := by
    rw [profileStep_products]
    exact checkStock_eq_not_found store.products cart hsuff hmissing
  simp only [checkout, hcontact, Bool.not_true, Bool.false_eq_true, if_false,
    hemp, hmin, hcs]
  exact ⟨by trivial, profileStep_orders store userId cd,
    profileStep_orderItems store userId cd, profileStep_products store userId cd⟩

/-- C5 (witness): the amended theorem at a cart whose second line
references the nonexistent product id 99 (total 3510, the first line
satisfiable). -/
theorem checkout_not_found_rejected_witness :
    (checkout baseStore none sampleCustomer
      [(1, { name := "Rocket", price := 3500, quantity := 1 }),
       (99, { name := "Ghost", price := 10, quantity := 1 })]).2 =
      CheckoutResponse.err
        { error_type := tagNotFound, error_code := 404, shortfall := none } :=
  (checkout_not_found_rejected baseStore none sampleCustomer
    [(1, { name := "Rocket", price := 3500, quantity := 1 }),
     (99, { name := "Ghost", price := 10, quantity := 1 })]
    (by decide) (by decide)
    (by norm_num [cartTotal, MIN_ORDER_AMOUNT])
    (fun line hl p hp => by
      rcases List.mem_cons.mp hl with rfl | hl'
      · have hs : findProduct baseStore.products 1 = some rocket := rfl
        rw [hs, Option.some.injEq] at hp
        subst hp
        decide
      · rw [List.mem_singleton] at hl'
        subst hl'
        have hs : findProduct baseStore.products 99 = none := rfl
        rw [hs] at hp
        exact absurd hp (by simp))
    ⟨(99, { name := "Ghost", price := 10, quantity := 1 }),
      by decide, rfl⟩).1

/-- When the user row exists and the name splits non-trivially, the
profile update writes first/last name, phone and address on every row
with the user's id. -/
theorem applyProfileUpdate_found (users : List UserProfile) (uid : Nat)
    (cd : CustomerData) (f : String) (rest : List String)
    (hmem : ∃ u ∈ users, u.id = uid)
    (hsplit : pySplitMax1 cd.fullName = f :: rest) :
    applyProfileUpdate users uid cd =
      users.map (fun u =>
        if u.id = uid then
          { u with
            first_name := f
            last_name := rest.headD emptyStr
            phone_number := cd.phone
            address := cd.deliveryAddress }
        else u) := by
  obtain ⟨u0, hu0, hid⟩ := hmem
  have hfind : (users.find? (fun u => u.id == uid)).isSome := by
    rw [List.find?_isSome]
    exact ⟨u0, hu0, by simp [hid]⟩
  unfold applyProfileUpdate
  cases hf : users.find? (fun u => u.id == uid) with
  | none => rw [hf] at hfind; simp at hfind
  | some u1 =>
    rw [hsplit]
    apply List.map_congr_left
    intro u _
    by_cases h : u.id = uid <;> simp [h]

/-- With `updateProfile` set and an authenticated user, the profile step
rewrites the users table and nothing else. -/
theorem profileStep_users_upd (s : Store) (uid : Nat) (cd : CustomerData)
    (hupd : cd.updateProfile = true) :
    profileStep s (some uid) cd =
      { s with users := applyProfileUpdate s.users uid cd } := by
  simp [profileStep, hupd]

/-- C10: for an authenticated user who set `customerData.updateProfile`,
with complete contact fields and a full name that splits into at least one
word, a checkout that then fails the empty-cart check (`validation`) or
the minimum-total check (`minimum_order`) has nevertheless already
persisted the profile mutation — first name, last name, phone and
address — while orders, order items and product stock are unchanged. -/
theorem checkout_failure_can_mutate_profile (store : Store) (uid : Nat)
    (cd : CustomerData) (cart : Cart) (f : String) (rest : List String)
    (hcontact : contactFieldsComplete cd = true)
    (hupd : cd.updateProfile = true)
    (hmem : ∃ u ∈ store.users, u.id = uid)
    (hsplit : pySplitMax1 cd.fullName = f :: rest)
    (hfail : cart = [] ∨ cartTotal cart < MIN_ORDER_AMOUNT) :
    ((checkout store (some uid) cd cart).2 =
        CheckoutResponse.err
          { error_type := tagValidation, error_code := 400, shortfall := none } ∨
      (checkout store (some uid) cd cart).2 =
        CheckoutResponse.err
          { error_type := tagMinimumOrder, error_code := 400,
            shortfall := some (MIN_ORDER_AMOUNT - cartTotal cart) }) ∧
    (checkout store (some uid) cd cart).1.users =
      store.users.map (fun u =>
        if u.id = uid then
          { u with
            first_name := f
            last_name := rest.headD emptyStr
            phone_number := cd.phone
            address := cd.deliveryAddress }
        else u) ∧
    (checkout store (some uid) cd cart).1.orders = store.orders ∧
    (checkout store (some uid) cd cart).1.orderItems = store.orderItems ∧
    (checkout store (some uid) cd cart).1.products = store.products := by
  have hstep := profileStep_users_upd store uid cd hupd
  have husers := applyProfileUpdate_found store.users uid cd f rest hmem hsplit
  by_cases hc : cart = []
  · subst hc
    simp only [checkout, hcontact, Bool.not_true, Bool.false_eq_true, if_false,
      List.isEmpty_nil, if_true, hstep]
    exact ⟨Or.inl (by trivial), husers, by trivial, by trivial, by trivial⟩
  · have hemp : cart.isEmpty = false := by
      cases cart with
      | nil => exact absurd rfl hc
      | cons a l => rfl
    have hlt : cartTotal cart < MIN_ORDER_AMOUNT := by
      rcases hfail with h | h
      · exact absurd h hc
      · exact h
    simp only [checkout, hcontact, Bool.not_true, Bool.false_eq_true, if_false,
      hemp, if_pos hlt, hstep]
    exact ⟨Or.inr (by trivial), husers, by trivial, by trivial, by trivial⟩

/-- C10 (witness): the frame-effect theorem at `baseStore` (user id 7),
with `updateProfile` set and a one-sparkler cart of total 100: checkout
fails with `minimum_order` yet the user row is rewritten. -/
theorem checkout_failure_can_mutate_profile_witness :
    (checkout baseStore (some 7) sampleCustomerUpd
      [(2, { name := "Sparkler", price := 100, quantity := 1 })]).1.users =
      baseStore.users.map (fun u =>
        if u.id = 7 then
          { u with
            first_name := ("Asha")
            last_name := (["Rao"]).headD emptyStr
            phone_number := sampleCustomerUpd.phone
            address := sampleCustomerUpd.deliveryAddress }
        else u) :=
  (checkout_failure_can_mutate_profile baseStore 7 sampleCustomerUpd
    [(2, { name := "Sparkler", price := 100, quantity := 1 })]
    ("Asha") (["Rao"])
    (by decide) (by decide) (by decide) (by decide)
    (Or.inr (by norm_num [cartTotal, MIN_ORDER_AMOUNT]))).2.1

/-! ## Theorems: order status and stock invariants -/

/-- C4: `update_order_status` performs no validation against
`STATUS_CHOICES` — the client-supplied string `"bogus"` is persisted as an
order status even though it is not one of the five enum values, so the
five-value status invariant does not hold after admin updates. -/
theorem update_order_status_accepts_invalid_status :
    ((update_order_status orderedStore 1 ("bogus")).1.orders.map
      (fun o => o.status)) = [("bogus")] ∧
    (("bogus") ∉ STATUS_CHOICES) ∧
    (update_order_status orderedStore 1 ("bogus")).2 = true := by
  refine ⟨?_, by decide, ?_⟩
  · rfl
  · rfl

/-- With distinct primary keys, looking up a member product by its own id
finds exactly that product. -/
theorem findProduct_unique (products : List Product)
    (hids : (products.map (fun p => p.id)).Nodup)
    (p : Product) (hp : p ∈ products) :
    findProduct products p.id = some p := by
  induction products with
  | nil => simp at hp
  | cons q rest ih =>
    simp only [List.map_cons, List.nodup_cons] at hids
    rcases List.mem_cons.mp hp with rfl | hp'
    · simp [findProduct, List.find?]
    · have hne : (q.id == p.id) = false := by
        simp only [beq_eq_false_iff_ne, ne_eq]
        intro he
        exact hids.1 (he ▸ List.mem_map_of_mem (fun x => x.id) hp')
      simp only [findProduct, List.find?, hne]
      exact ih hids.2 hp'

/-- The products table after checkout: unchanged on every error path, and
equal to the closed-form decrement map on the success path (where the
stock check must have passed). -/
theorem checkout_products_cases (store : Store) (userId : Option Nat)
    (cd : CustomerData) (cart : Cart) :
    (checkout store userId cd cart).1.products = store.products ∨
    ((checkout store userId cd cart).1.products =
        store.products.map (fun p =>
          { p with stock_quantity := p.stock_quantity - cartQtySum cart p.id }) ∧
      checkStock store.products cart = none) := by
  cases hcf : contactFieldsComplete cd with
  | false =>
    left
    simp [checkout, hcf]
  | true =>
    cases hemp : cart.isEmpty with
    | true =>
      left
      simp [checkout, hcf, hemp, profileStep_products]
    | false =>
      by_cases hlt : cartTotal cart < MIN_ORDER_AMOUNT
      · left
        simp [checkout, hcf, hemp, if_pos hlt, profileStep_products]
      · cases hcs : checkStock store.products cart with
        | some e =>
          left
          have hcs' : checkStock (profileStep store userId cd).products cart =
              some e := by rw [profileStep_products]; exact hcs
          simp [checkout, hcf, hemp, if_neg hlt, hcs', hcs, profileStep_products]
        | none =>
          right
          have hcs' : checkStock (profileStep store userId cd).products cart =
              none := by rw [profileStep_products]; exact hcs
          refine ⟨?_, rfl⟩
          simp only [checkout, hcf, Bool.not_true, Bool.false_eq_true, if_false,
            hemp, if_neg hlt, hcs', hcs]
          rw [profileStep_products, applyCartDecrements_eq_map]

/-- C6 (amended): starting from a store with distinct product ids and all
stock quantities non-negative, checkout (on a dict-shaped cart) and
`update_stock` preserve non-negativity of every stock for any integer
quantity input, and `quick_add_stock` preserves it for non-negative
quantity input. -/
theorem stock_nonneg_preserved (store : Store)
    (hnn : ∀ p ∈ store.products, 0 ≤ p.stock_quantity)
    (hids : (store.products.map (fun p => p.id)).Nodup) :
    (∀ userId cd cart, (cart.map Prod.fst).Nodup →
      ∀ p ∈ (checkout store userId cd cart).1.products, 0 ≤ p.stock_quantity) ∧
    (∀ product_id quantity,
      ∀ p ∈ (update_stock store product_id quantity).1.products,
        0 ≤ p.stock_quantity) ∧
    (∀ product_id quantity, 0 ≤ quantity →
      ∀ p ∈ (quick_add_stock store product_id quantity).1.products,
        0 ≤ p.stock_quantity) := by
  refine ⟨?_, ?_, ?_⟩
  · intro userId cd cart hkeys p' hp'
    rcases checkout_products_cases store userId cd cart with h | ⟨h, hcs⟩
    · rw [h] at hp'
      exact hnn p' hp'
    · rw [h] at hp'
      obtain ⟨p, hp, rfl⟩ := List.mem_map.mp hp'
      simp only
      rw [cartQtySum_eq_posQty_purchased cart p.id hkeys]
      have h0 := hnn p hp
      unfold purchasedQty
      cases hf : cart.find? (fun l => l.1 == p.id) with
      | none => simpa [posQty] using h0
      | some l =>
        have hmem := List.mem_of_find?_eq_some hf
        have hpred := List.find?_some hf
        have hlid : l.1 = p.id := by simpa using hpred
        obtain ⟨q, hq, hstock⟩ := (checkStock_eq_none_iff _ _).mp hcs l hmem
        have hq' : findProduct store.products l.1 = some p := by
          rw [hlid]
          exact findProduct_unique store.products hids p hp
        rw [hq'] at hq
        injection hq with hq
        subst hq
        simp only [posQty]
        split <;> omega
  · intro product_id quantity p' hp'
    unfold update_stock at hp'
    cases hf : findProduct store.products product_id with
    | none =>
      rw [hf] at hp'
      dsimp only at hp'
      exact hnn p' hp'
    | some p0 =>
      rw [hf] at hp'
      dsimp only at hp'
      by_cases hle : quantity ≤ p0.stock_quantity
      · rw [if_pos hle] at hp'
        simp only [decrementStock] at hp'
        obtain ⟨p, hp, rfl⟩ := List.mem_map.mp hp'
        by_cases hid : p.id = product_id
        · have hb : (p.id == product_id) = true := by simp [hid]
          simp only [hb, if_true]
          have : findProduct store.products product_id = some p := by
            rw [← hid]
            exact findProduct_unique store.products hids p hp
          rw [this] at hf
          injection hf with hf
          subst hf
          omega
        · have hb : (p.id == product_id) = false := by simp [hid]
          simp only [hb, Bool.false_eq_true, if_false]
          exact hnn p hp
      · rw [if_neg hle] at hp'
        exact hnn p' hp'
  · intro product_id quantity hq p' hp'
    unfold quick_add_stock at hp'
    cases hf : findProduct store.products product_id with
    | none =>
      rw [hf] at hp'
      dsimp only at hp'
      exact hnn p' hp'
    | some p0 =>
      rw [hf] at hp'
      dsimp only at hp'
      obtain ⟨p, hp, rfl⟩ := List.mem_map.mp hp'
      have h0 := hnn p hp
      by_cases hid : p.id = product_id
      · have hb : (p.id == product_id) = true := by simp [hid]
        simp only [hb, if_true]
        omega
      · have hb : (p.id == product_id) = false := by simp [hid]
        simp only [hb, Bool.false_eq_true, if_false]
        exact h0

/-- C6 (witness): the preservation theorem applied to `baseStore` with a
concrete checkout, a stock update of 3 sparklers, and a quick-add of 4. -/
theorem stock_nonneg_preserved_witness :
    (∀ p ∈ (checkout baseStore none sampleCustomer
        [(2, { name := "Sparkler", price := 100, quantity := 2 })]).1.products,
      0 ≤ p.stock_quantity) ∧
    (∀ p ∈ (update_stock baseStore 2 3).1.products, 0 ≤ p.stock_quantity) ∧
    (∀ p ∈ (quick_add_stock baseStore 2 4).1.products, 0 ≤ p.stock_quantity) :=
  have h := stock_nonneg_preserved baseStore (by decide) (by decide)
  ⟨h.1 none sampleCustomer
    [(2, { name := "Sparkler", price := 100, quantity := 2 })] (by decide),
   h.2.1 2 3, h.2.2 2 4 (by decide)⟩

/-- C6 (counterexample): the claim is false for `quick_add_stock` with a
negative quantity input — adding −10 to the sparkler's stock of 5 drives
it to −5, below zero, since the view performs no sign check. -/
theorem quick_add_stock_negative_counterexample :
    (∀ p ∈ baseStore.products, 0 ≤ p.stock_quantity) ∧
    ∃ p ∈ (quick_add_stock baseStore 2 (-10)).1.products,
      p.stock_quantity < 0 := by
  constructor
  · decide
  · decide

/-! ## Lemmas about the quick-order builder -/

theorem bundleTotal_cons (p : Product) (l : List Product) :
    bundleTotal (p :: l) = p.price + bundleTotal l := by
  simp [bundleTotal]

theorem bundleTotal_append (l1 l2 : List Product) :
    bundleTotal (l1 ++ l2) = bundleTotal l1 + bundleTotal l2 := by
  simp [bundleTotal]

theorem bundleTotal_nonneg (l : List Product) (h : ∀ p ∈ l, 0 ≤ p.price) :
    0 ≤ bundleTotal l := by
  induction l with
  | nil => simp [bundleTotal]
  | cons p rest ih =>
    rw [bundleTotal_cons]
    have h1 := h p (List.mem_cons_self _ _)
    have h2 := ih (fun q hq => h q (List.mem_cons_of_mem _ hq))
    linarith

/-- The greedy loop appends a sublist of its candidates and accumulates
exactly that sublist's total. -/
theorem greedySelect_spec (cands : List Product) :
    ∀ sel t, ∃ ds, ds.Sublist cands ∧
      (greedySelect cands sel t).1 = sel ++ ds ∧
      (greedySelect cands sel t).2 = t + bundleTotal ds := by
  induction cands with
  | nil =>
    intro sel t
    exact ⟨[], List.Sublist.refl _, by simp [greedySelect],
      by simp [greedySelect, bundleTotal]⟩
  | cons p rest ih =>
    intro sel t
    by_cases h : MIN_ORDER_AMOUNT ≤ t
    · refine ⟨[], List.nil_sublist _, ?_, ?_⟩
      · simp [greedySelect, h]
      · simp [greedySelect, h, bundleTotal]
    · obtain ⟨ds, hsub, h1, h2⟩ := ih (sel ++ [p]) (t + p.price)
      refine ⟨p :: ds, List.Sublist.cons₂ p hsub, ?_, ?_⟩
      · simp only [greedySelect, if_neg h]
        rw [h1]
        simp
      · simp only [greedySelect, if_neg h]
        rw [h2, bundleTotal_cons]
        ring

/-- If the candidates' total reaches the threshold, the greedy loop's
accumulated total reaches it too. -/
theorem greedySelect_total_ge (cands : List Product) :
    ∀ sel t, MIN_ORDER_AMOUNT ≤ t + bundleTotal cands →
      MIN_ORDER_AMOUNT ≤ (greedySelect cands sel t).2 := by
  induction cands with
  | nil =>
    intro sel t h
    simpa [greedySelect, bundleTotal] using h
  | cons p rest ih =>
    intro sel t h
    by_cases hle : MIN_ORDER_AMOUNT ≤ t
    · simp only [greedySelect, if_pos hle]
      exact hle
    · simp only [greedySelect, if_neg hle]
      apply ih
      rw [bundleTotal_cons] at h
      linarith

theorem dedupById_mem (l : List Product) :
    ∀ seen, ∀ p ∈ dedupById l seen, p ∈ l := by
  induction l with
  | nil =>
    intro seen p hp
    simp [dedupById] at hp
  | cons q rest ih =>
    intro seen p hp
    cases h : seen.contains q.id with
    | true =>
      rw [dedupById, if_pos h] at hp
      exact List.mem_cons_of_mem _ (ih _ p hp)
    | false =>
      rw [dedupById, if_neg (by rw [h]; exact Bool.false_ne_true)] at hp
      rcases List.mem_cons.mp hp with rfl | hp'
      · exact List.mem_cons_self _ _
      · exact List.mem_cons_of_mem _ (ih _ p hp')

/-- Deduplication yields pairwise-distinct product ids, none of them in
the `seen` accumulator. -/
theorem dedupById_nodup (l : List Product) :
    ∀ seen, (((dedupById l seen).map (fun p => p.id)).Nodup) ∧
      ∀ p ∈ dedupById l seen, p.id ∉ seen := by
  induction l with
  | nil =>
    intro seen
    exact ⟨List.nodup_nil, by simp [dedupById]⟩
  | cons q rest ih =>
    intro seen
    cases h : seen.contains q.id with
    | true =>
      constructor
      · rw [dedupById, if_pos h]
        exact (ih seen).1
      · intro p hp
        rw [dedupById, if_pos h] at hp
        exact (ih seen).2 p hp
    | false =>
      obtain ⟨ihn, ihs⟩ := ih (q.id :: seen)
      have hqs : q.id ∉ seen := by simpa using h
      constructor
      · rw [dedupById, if_neg (by rw [h]; exact Bool.false_ne_true)]
        rw [List.map_cons, List.nodup_cons]
        refine ⟨?_, ihn⟩
        intro hmem
        obtain ⟨p, hp, hpid⟩ := List.mem_map.mp hmem
        exact (ihs p hp) (hpid ▸ List.mem_cons_self _ _)
      · intro p hp
        rw [dedupById, if_neg (by rw [h]; exact Bool.false_ne_true)] at hp
        rcases List.mem_cons.mp hp with rfl | hp'
        · exact hqs
        · intro hmem
          exact (ihs p hp') (List.mem_cons_of_mem _ hmem)

/-- Every gathered candidate is an active product of the store. -/
theorem candidatesFor_mem (store : Store) (bd : BundleDef) :
    ∀ p ∈ candidatesFor store bd, p ∈ store.products ∧ p.is_active = true := by
  intro p hp
  unfold candidatesFor at hp
  cases hfocus : bd.category_focus with
  | some cats =>
    rw [hfocus] at hp
    obtain ⟨l, hl, hpl⟩ := List.mem_flatten.mp hp
    obtain ⟨cn, _, rfl⟩ := List.mem_map.mp hl
    rw [sortProductsByPriceDesc, List.mem_insertionSort] at hpl
    have hact := List.mem_of_mem_filter hpl
    rw [activeProducts] at hact
    exact ⟨List.mem_of_mem_filter hact, List.of_mem_filter hact⟩
  | none =>
    rw [hfocus] at hp
    obtain ⟨l, hl, hpl⟩ := List.mem_flatten.mp hp
    obtain ⟨c, _, rfl⟩ := List.mem_map.mp hl
    rw [sortProductsByPriceDesc, List.mem_insertionSort] at hpl
    have hact := List.mem_of_mem_filter hpl
    rw [activeProducts] at hact
    exact ⟨List.mem_of_mem_filter hact, List.of_mem_filter hact⟩

/-- The two greedy passes: distinct ids, membership in the candidates,
total accounting, and threshold attainment when the candidates suffice. -/
theorem greedyPhase_spec (cands : List Product)
    (hnd : ((cands.map (fun p => p.id)).Nodup)) :
    (((greedyPhase cands).1.map (fun p => p.id)).Nodup) ∧
    (∀ p ∈ (greedyPhase cands).1, p ∈ cands) ∧
    bundleTotal (greedyPhase cands).1 = (greedyPhase cands).2 ∧
    (MIN_ORDER_AMOUNT ≤ bundleTotal cands →
      MIN_ORDER_AMOUNT ≤ (greedyPhase cands).2) := by
  obtain ⟨ds1, hsub1, h11, h12⟩ := greedySelect_spec cands [] 0
  rw [List.nil_append] at h11
  rw [zero_add] at h12
  have hds1nd : ((ds1.map (fun p => p.id)).Nodup) :=
    List.Nodup.sublist (hsub1.map (fun p => p.id)) hnd
  unfold greedyPhase
  by_cases hlt : (greedySelect cands [] 0).2 < MIN_ORDER_AMOUNT
  · rw [if_pos hlt]
    obtain ⟨ds2, hsub2, h21, h22⟩ := greedySelect_spec
      (cands.filter (fun p =>
        !((greedySelect cands [] 0).1.any (fun q => q.id == p.id))))
      (greedySelect cands [] 0).1 (greedySelect cands [] 0).2
    have hds2cands : ∀ p ∈ ds2, p ∈ cands := fun p hp =>
      List.mem_of_mem_filter (hsub2.subset hp)
    have hds2nd : ((ds2.map (fun p => p.id)).Nodup) :=
      List.Nodup.sublist
        ((hsub2.trans (List.filter_sublist _)).map (fun p => p.id)) hnd
    have hdisj : List.Disjoint (ds1.map (fun p => p.id))
        (ds2.map (fun p => p.id)) := by
      intro a ha hb
      obtain ⟨p, hp, hpid⟩ := List.mem_map.mp hb
      have hfilt := List.of_mem_filter (hsub2.subset hp)
      rw [h11] at hfilt
      obtain ⟨q, hq, hqid⟩ := List.mem_map.mp ha
      have : ∃ q ∈ ds1, (q.id == p.id) = true := by
        refine ⟨q, hq, ?_⟩
        simp [hqid, hpid]
      rw [Bool.not_eq_true', ← Bool.not_eq_true] at hfilt
      exact hfilt (List.any_eq_true.mpr this)
    refine ⟨?_, ?_, ?_, ?_⟩
    · rw [h21, h11, List.map_append]
      exact List.Nodup.append hds1nd hds2nd hdisj
    · intro p hp
      rw [h21, h11] at hp
      rcases List.mem_append.mp hp with hp' | hp'
      · exact hsub1.subset hp'
      · exact hds2cands p hp'
    · rw [h21, h22, h11, h12, bundleTotal_append]
    · intro hge
      have := greedySelect_total_ge cands [] 0 (by rw [zero_add]; exact hge)
      exact absurd this (not_le.mpr hlt)
  · rw [if_neg hlt]
    refine ⟨by rw [h11]; exact hds1nd, ?_, by rw [h11, h12], ?_⟩
    · intro p hp
      rw [h11] at hp
      exact hsub1.subset hp
    · intro hge
      exact greedySelect_total_ge cands [] 0 (by rw [zero_add]; exact hge)

/-- The variety-floor step: preserves distinct ids, reaches 4 items when
the store has at least 4 active products, and never lowers the total when
prices are non-negative. -/
theorem topUp_spec (store : Store) (sel : List Product)
    (hids : ((store.products.map (fun p => p.id)).Nodup))
    (hsel : ((sel.map (fun p => p.id)).Nodup)) :
    (((topUp store sel).map (fun p => p.id)).Nodup) ∧
    (4 ≤ (activeProducts store).length → 4 ≤ (topUp store sel).length) ∧
    ((∀ p ∈ store.products, 0 ≤ p.price) →
      bundleTotal sel ≤ bundleTotal (topUp store sel)) := by
  have hactsub : (activeProducts store).Sublist store.products := by
    rw [activeProducts]
    exact List.filter_sublist _
  have hactids : (((activeProducts store).map (fun p => p.id)).Nodup) :=
    List.Nodup.sublist (hactsub.map (fun p => p.id)) hids
  unfold topUp
  by_cases hlen : sel.length < 4
  · rw [if_pos hlen]
    have htake : ((activeProducts store).filter (fun p =>
        !(sel.any (fun q => q.id == p.id)))).take (4 - sel.length) |>.Sublist
        (activeProducts store) :=
      (List.take_sublist _ _).trans (List.filter_sublist _)
    refine ⟨?_, ?_, ?_⟩
    · rw [List.map_append]
      apply List.Nodup.append hsel
        (List.Nodup.sublist (htake.map (fun p => p.id)) hactids)
      intro a ha hb
      obtain ⟨p, hp, hpid⟩ := List.mem_map.mp hb
      have hfilt := List.of_mem_filter (List.mem_of_mem_take hp)
      obtain ⟨q, hq, hqid⟩ := List.mem_map.mp ha
      have hex : ∃ q ∈ sel, (q.id == p.id) = true := by
        refine ⟨q, hq, ?_⟩
        simp [hqid, hpid]
      rw [Bool.not_eq_true', ← Bool.not_eq_true] at hfilt
      exact hfilt (List.any_eq_true.mpr hex)
    · intro hactive
      rw [List.length_append, List.length_take]
      have hpart := List.length_eq_length_filter_add (l := activeProducts store)
        (fun p => sel.any (fun q => q.id == p.id))
      have hbad : ((activeProducts store).filter (fun p =>
          sel.any (fun q => q.id == p.id))).length ≤ sel.length := by
        have hndbad : ((((activeProducts store).filter (fun p =>
            sel.any (fun q => q.id == p.id))).map (fun p => p.id)).Nodup) :=
          List.Nodup.sublist
            ((List.filter_sublist (activeProducts store)).map
              (fun p : Product => p.id)) hactids
        have hsubset : (((activeProducts store).filter (fun p =>
            sel.any (fun q => q.id == p.id))).map (fun p => p.id)) ⊆
            sel.map (fun p => p.id) := by
          intro a ha
          obtain ⟨p, hp, hpid⟩ := List.mem_map.mp ha
          obtain ⟨q, hq, hqid⟩ := List.any_eq_true.mp ((List.mem_filter.mp hp).2)
          rw [beq_iff_eq] at hqid
          exact hpid ▸ hqid ▸ List.mem_map_of_mem (fun p => p.id) hq
        have := (List.subperm_of_subset hndbad hsubset).length_le
        simpa using this
      have havail : 4 - sel.length ≤ ((activeProducts store).filter (fun p =>
          !(sel.any (fun q => q.id == p.id)))).length := by
        omega
      omega
    · intro hpr
      rw [bundleTotal_append]
      have h0 : 0 ≤ bundleTotal (((activeProducts store).filter (fun p =>
          !(sel.any (fun q => q.id == p.id)))).take (4 - sel.length)) :=
        bundleTotal_nonneg _ (fun p hp =>
          hpr p (List.mem_of_mem_filter (htake.subset hp)))
      linarith
  · rw [if_neg hlen]
    exact ⟨hsel, fun _ => by omega, fun _ => le_refl _⟩

/-- Per-bundle guarantees of the builder. -/
theorem buildBundleProducts_spec (store : Store) (bd : BundleDef)
    (hids : ((store.products.map (fun p => p.id)).Nodup))
    (hprices : ∀ p ∈ store.products, 0 ≤ p.price) :
    (((buildBundleProducts store bd).map (fun p => p.id)).Nodup) ∧
    (4 ≤ (activeProducts store).length →
      4 ≤ (buildBundleProducts store bd).length) ∧
    (MIN_ORDER_AMOUNT ≤ bundleTotal (dedupById (candidatesFor store bd) []) →
      MIN_ORDER_AMOUNT ≤ bundleTotal (buildBundleProducts store bd)) := by
  have hcnd : (((dedupById (candidatesFor store bd) []).map
      (fun p => p.id)).Nodup) :=
    (dedupById_nodup (candidatesFor store bd) []).1
  obtain ⟨hnd, hmem, htoteq, hthresh⟩ :=
    greedyPhase_spec (dedupById (candidatesFor store bd) []) hcnd
  obtain ⟨tnd, tlen, ttot⟩ := topUp_spec store
    (greedyPhase (dedupById (candidatesFor store bd) [])).1 hids hnd
  unfold buildBundleProducts
  refine ⟨tnd, tlen, ?_⟩
  intro hge
  have h1 := hthresh hge
  rw [← htoteq] at h1
  exact le_trans h1 (ttot hprices)

/-- C9 (amended): the quick-order builder returns exactly five named
bundles; every bundle has pairwise-distinct products; when the store has
at least 4 active products every bundle has at least 4 items; and every
bundle whose (deduplicated) candidate pool totals at least 3000 has total
at least 3000.  (Store hypotheses: distinct product ids, non-negative
prices.) -/
theorem quick_order_lists_properties (store : Store)
    (hids : ((store.products.map (fun p => p.id)).Nodup))
    (hprices : ∀ p ∈ store.products, 0 ≤ p.price)
    (hactive : 4 ≤ (activeProducts store).length)
    (hcands : ∀ bd ∈ bundleDefs,
      MIN_ORDER_AMOUNT ≤ bundleTotal (dedupById (candidatesFor store bd) [])) :
    (getQuickOrderLists store).length = 5 ∧
    ∀ entry ∈ getQuickOrderLists store,
      ((entry.2.map (fun p => p.id)).Nodup) ∧
      4 ≤ entry.2.length ∧
      MIN_ORDER_AMOUNT ≤ bundleTotal entry.2 := by
  constructor
  · rfl
  · intro entry hentry
    obtain ⟨bd, hbd, rfl⟩ := List.mem_map.mp hentry
    obtain ⟨hnodup, hlen, htot⟩ := buildBundleProducts_spec store bd hids hprices
    exact ⟨hnodup, hlen hactive, htot (hcands bd hbd)⟩

/-- C9 (witness): the builder guarantees at the concrete store `qoStore`
(four categories matching the bundle filters, one 2000-rupee active
product each), whose candidate pools all reach 3000. -/
theorem quick_order_lists_properties_witness :
    (getQuickOrderLists qoStore).length = 5 ∧
    ∀ entry ∈ getQuickOrderLists qoStore,
      ((entry.2.map (fun p => p.id)).Nodup) ∧
      4 ≤ entry.2.length ∧
      MIN_ORDER_AMOUNT ≤ bundleTotal entry.2 :=
  quick_order_lists_properties qoStore (by decide)
    (fun p hp => by
      fin_cases hp <;> norm_num [qp1, qp2, qp3, qp4])
    (by decide)
    (fun bd hbd => by
      fin_cases hbd
      · rw [show dedupById (candidatesFor qoStore quickList1) [] =
            [qp1, qp2, qp3, qp4] from rfl]
        norm_num [bundleTotal, qp1, qp2, qp3, qp4, MIN_ORDER_AMOUNT]
      · rw [show dedupById (candidatesFor qoStore quickList2) [] =
            [qp2, qp1] from rfl]
        norm_num [bundleTotal, qp1, qp2, MIN_ORDER_AMOUNT]
      · rw [show dedupById (candidatesFor qoStore quickList3) [] =
            [qp3, qp4, qp2] from rfl]
        norm_num [bundleTotal, qp2, qp3, qp4, MIN_ORDER_AMOUNT]
      · rw [show dedupById (candidatesFor qoStore quickList4) [] =
            [qp1, qp2, qp3, qp4] from rfl]
        norm_num [bundleTotal, qp1, qp2, qp3, qp4, MIN_ORDER_AMOUNT]
      · rw [show dedupById (candidatesFor qoStore quickList5) [] =
            [qp1, qp2, qp3, qp4] from rfl]
        norm_num [bundleTotal, qp1, qp2, qp3, qp4, MIN_ORDER_AMOUNT])

/-- C9 (counterexample): the claim's unconditional guarantees are false —
on a store with a single 100-rupee active product, the first bundle comes
back with one item (fewer than 4) and total 100 (below 3000). -/
theorem quick_order_claim_counterexample :
    ∃ entry ∈ getQuickOrderLists poorStore,
      entry.2.length < 4 ∧ bundleTotal entry.2 < MIN_ORDER_AMOUNT := by
  have e1 : greedySelect [sparkler] ([] : List Product) 0 =
      ([sparkler], 0 + sparkler.price) := by
    simp only [greedySelect]
    rw [if_neg (by norm_num [MIN_ORDER_AMOUNT])]
    rfl
  have hg1 : greedyPhase [sparkler] = ([sparkler], 0 + sparkler.price) := by
    simp only [greedyPhase, e1]
    rw [if_pos (by norm_num [sparkler, MIN_ORDER_AMOUNT])]
    have e2 : ([sparkler].filter (fun p =>
        !(([sparkler] : List Product).any (fun q => q.id == p.id)))) =
        ([] : List Product) := rfl
    rw [e2]
    simp only [greedySelect]
  have hb : buildBundleProducts poorStore quickList1 = [sparkler] := by
    unfold buildBundleProducts
    rw [show dedupById (candidatesFor poorStore quickList1) [] = [sparkler]
      from rfl]
    rw [hg1]
    rfl
  refine ⟨(quickList1, buildBundleProducts poorStore quickList1), ?_, ?_, ?_⟩
  · exact List.mem_map_of_mem _ (by decide)
  · rw [hb]
    norm_num
  · rw [hb]
    norm_num [bundleTotal, sparkler, MIN_ORDER_AMOUNT]
